import Mathlib

/-!
Verification of the MyNeuroBot frontend (vanilla-JS pages under
Frontend/static/js) against the repository's natural-language specification.

Each definition is a shallow embedding of one function of the source:
DOM reads become explicit arguments, DOM writes and issued HTTP requests
become explicit fields of a result record, and JS values that may be
`undefined`/`null` become `Option` values. Definitions whose doc comment
starts with `Modelled from the spec:` embed backend behaviour that is not
present under src/ and is taken from the specification text instead.
-/

namespace NeuroBot

/-- JS `String.prototype.trim`: strips leading and trailing whitespace.
Implemented over the character list so that it evaluates by kernel
reduction. -/
def jsTrim (s : String) : String :=
  String.mk (((s.data.dropWhile Char.isWhitespace).reverse.dropWhile
    Char.isWhitespace).reverse)

/-! ## Q&A form validation (viewer.js) -/

/-- Outcome of a form submit handler: the validation error message placed in
the error element (if any) and whether the HTTP mutation request was issued. -/
structure SubmitOutcome where
  errorMsg : Option String
  requestSent : Bool
deriving DecidableEq

/-- viewer.js, `addQaForm` submit handler (lines 403-448): trims the question
and the answer, checks in order that the question is non-empty, the question
has at most 250 characters, the answer is non-empty and the answer has at most
2500 characters; each failed check stores a specific message and returns, and
only when all checks pass is the POST /api/add_qa request issued. -/
def addQaSubmit (questionRaw answerRaw : String) : SubmitOutcome :=
  let question := jsTrim questionRaw
  let answer := jsTrim answerRaw
  if question = "" then
    { errorMsg := some "Пожалуйста, введите вопрос.", requestSent := false }
  else if question.length > 250 then
    { errorMsg := some "Вопрос слишком длинный. Максимальная длина вопроса - 250 символов.",
      requestSent := false }
  else if answer = "" then
    { errorMsg := some "Пожалуйста, введите ответ.", requestSent := false }
  else if answer.length > 2500 then
    { errorMsg := some "Ответ слишком длинный. Максимальная длина ответа - 2500 символов.",
      requestSent := false }
  else
    { errorMsg := none, requestSent := true }

/-- viewer.js, `handleEdit` (lines 484-511): the validation part of the edit
submit handler, which duplicates the add-form checks character for character
before issuing the PUT /api/document/:id request. -/
def handleEditValidate (questionRaw answerRaw : String) : SubmitOutcome :=
  let question := jsTrim questionRaw
  let answer := jsTrim answerRaw
  if question = "" then
    { errorMsg := some "Пожалуйста, введите вопрос.", requestSent := false }
  else if question.length > 250 then
    { errorMsg := some "Вопрос слишком длинный. Максимальная длина вопроса - 250 символов.",
      requestSent := false }
  else if answer = "" then
    { errorMsg := some "Пожалуйста, введите ответ.", requestSent := false }
  else if answer.length > 2500 then
    { errorMsg := some "Ответ слишком длинный. Максимальная длина ответа - 2500 символов.",
      requestSent := false }
  else
    { errorMsg := none, requestSent := true }

/-! ## Settings defaults (settings.js, loadSettingsForKb) -/

/-- The settings record as returned by the settings-get endpoint: every field
may be absent (`undefined` in JS). -/
structure SettingsPayload where
  tone : Option Int
  humor : Option Int
  brevity : Option Int
  additional_prompt : Option String
deriving DecidableEq

/-- The settings form after loading: every field holds a concrete value. -/
structure SettingsForm where
  tone : Int
  humor : Int
  brevity : Int
  additional_prompt : String
deriving DecidableEq

/-- settings.js, `loadSettingsForKb` (lines 420-445): fills the form inputs
from the fetched settings, substituting 2 for `tone`, `humor` and `brevity`
when the field is `undefined` (the `!== undefined ? value : 2` checks) and
the empty string for a missing `additional_prompt` (the `|| ''` fallback,
which also maps an explicitly empty string to the empty string). -/
def loadSettingsForKb (s : SettingsPayload) : SettingsForm :=
  { tone := match s.tone with | some t => t | none => 2
  , humor := match s.humor with | some h => h | none => 2
  , brevity := match s.brevity with | some b => b | none => 2
  , additional_prompt := match s.additional_prompt with | some p => p | none => "" }

/-! ## Chat page send handler (chatbot.js) -/

/-- The mutable pieces of the chat page that `sendMessage` touches: the text
input's value and disabled flag, the send button's disabled flag, the rendered
conversation (text together with sender), and the list of message bodies
POSTed to /api/chatbot. -/
structure ChatPageState where
  inputValue : String
  inputDisabled : Bool
  sendButtonDisabled : Bool
  messages : List (String × String)
  requestsSent : List String
deriving DecidableEq

/-- chatbot.js, `sendMessage` (lines 118-145), up to the point where the POST
is issued: if the trimmed input is empty the function returns at once;
otherwise it disables the input and the button, appends the user message to
the conversation, clears the input and issues the request. -/
def sendMessage (st : ChatPageState) : ChatPageState :=
  let message := jsTrim st.inputValue
  if message = "" then st
  else
    { inputValue := ""
    , inputDisabled := true
    , sendButtonDisabled := true
    , messages := st.messages ++ [(message, "user")]
    , requestsSent := st.requestsSent ++ [message] }

/-! ## HTML escaping (chatbot.js) -/

/-- One character of text as serialised back out of a DOM text node: the
markup characters &, < and > come out as entities, everything else as
itself. -/
def escapeChar (c : Char) : List Char :=
  if c = '&' then "&amp;".data
  else if c = '<' then "&lt;".data
  else if c = '>' then "&gt;".data
  else [c]

/-- chatbot.js, `escapeHtml` (lines 298-302): writes the text into a detached
div's textContent and reads back innerHTML, which serialises the text node,
turning the markup characters into entities. -/
def escapeHtml (s : String) : String :=
  String.mk ((s.data.map escapeChar).flatten)

/-- chatbot.js, `addMessage` (lines 188-225): the message text as interpolated
into the bubble's innerHTML — both the user branch and the bot branch pass the
text through `escapeHtml`. -/
def addMessageRenderedText (text sender : String) : String :=
  if sender = "user" then escapeHtml text else escapeHtml text

/-! ## Chat response handling (chatbot.js) and the stopped outcome -/

/-- JS `x || d` for an optional string `x`: the default is used when the value
is absent (`undefined`, modelled as `none`) or an empty string (falsy). -/
def jsOr (x : Option String) (d : String) : String :=
  match x with
  | none => d
  | some s => if s = "" then d else s

/-- The /api/chatbot response as the frontend reads it: the HTTP status and
the JSON fields `success`, `chatbot_stopped`, `admin_stopped`, `error` and
`response`. -/
structure ChatApiResponse where
  status : Nat
  success : Bool
  chatbot_stopped : Bool
  admin_stopped : Bool
  error : Option String
  response : Option String
deriving DecidableEq

/-- chatbot.js, `sendMessage` response handling (lines 146-173): the bot
message appended to the conversation for a given /api/chatbot response. A 503
status is handled first; inside it the handler branches on the
`chatbot_stopped` flag and shows the carried message (`data.error`), falling
back to a fixed unavailable text. -/
def botMessageFor (r : ChatApiResponse) : String :=
  if r.status = 503 then
    if r.chatbot_stopped then jsOr r.error "Чатбот временно недоступен"
    else "Извините, произошла ошибка: " ++ jsOr r.error "Неизвестная ошибка"
  else if r.success then (r.response).getD ""
  else "Извините, произошла ошибка: " ++ jsOr r.error "Неизвестная ошибка"

/-- Modelled from the spec: the backend chat endpoint is absent from src/; per
§6 the chat operation, invoked while the service is stopped, returns an
HTTP 503 outcome carrying the stopped flag set to true, the `admin_stopped`
flag and the configured stop message; on the wire the frontend reads the flag
as `chatbot_stopped` and the message as `error`. -/
def chatServiceStoppedResponse (adminStopped : Bool) (stopMessage : String) :
    ChatApiResponse :=
  { status := 503, success := false, chatbot_stopped := true,
    admin_stopped := adminStopped, error := some stopMessage, response := none }

/-! ## Knowledge-base deletion (settings.js) -/

/-- Outcome of the delete flow on the settings page: the message shown (if
any) and whether the DELETE request was issued. -/
structure DeleteKbOutcome where
  errorMsg : Option String
  deleteRequestSent : Bool
deriving DecidableEq

/-- settings.js, `deleteCurrentKb` (lines 370-387) together with
`proceedWithDeletion` (lines 389-418): refuses when no KB is selected and when
the selected KB is `default` (specific message, no request); otherwise, once
the user confirms, the DELETE /api/knowledge-bases/:id request is issued. -/
def deleteCurrentKb (currentKbId : Option String) (confirmed : Bool) :
    DeleteKbOutcome :=
  match currentKbId with
  | none =>
      { errorMsg := some "Сначала выберите базу знаний.", deleteRequestSent := false }
  | some kbId =>
      if kbId = "default" then
        { errorMsg := some "Базу знаний по умолчанию нельзя удалить",
          deleteRequestSent := false }
      else if confirmed then
        { errorMsg := none, deleteRequestSent := true }
      else
        { errorMsg := none, deleteRequestSent := false }

/-- The caller-side knowledge-base state the delete operation acts on: the
set of KB ids and the current-KB pointer. -/
structure KbState where
  kbIds : List String
  currentKb : String
deriving DecidableEq

/-- Result of the backend delete operation: the success flag, the
`switched_to_default` flag the frontend reads, and the state afterwards. -/
structure DeleteKbResult where
  success : Bool
  switched_to_default : Bool
  after : KbState
deriving DecidableEq

/-- Modelled from the spec: the backend KB delete operation is absent from
src/; per §3 and §8, deleting the KB marked default is disallowed, and
deleting the currently-selected non-default KB atomically falls the caller's
current-KB pointer back to the default KB, reported to the frontend through
the `switched_to_default` flag. -/
def deleteKb (st : KbState) (kbId : String) : DeleteKbResult :=
  if kbId = "default" then
    { success := false, switched_to_default := false, after := st }
  else if st.currentKb = kbId then
    { success := true, switched_to_default := true,
      after := { kbIds := st.kbIds.filter (fun i => i != kbId),
                 currentKb := "default" } }
  else
    { success := true, switched_to_default := false,
      after := { kbIds := st.kbIds.filter (fun i => i != kbId),
                 currentKb := st.currentKb } }

/-! ## Chatbot stop/start controls (settings.js) -/

/-- The /api/chatbot/status payload as the settings page reads it. -/
structure StatusPayload where
  stopped : Bool
  stopped_by : Option String
  stopped_at : Option String
  message : Option String
deriving DecidableEq

/-- The pieces of the settings page that `updateChatbotStatusDisplay`
writes: the status label text and the visibility of the stop button, the
start button and the stop-details block. -/
structure StatusDisplay where
  statusText : String
  stopBtnVisible : Bool
  startBtnVisible : Bool
  detailsVisible : Bool
deriving DecidableEq

/-- settings.js, `updateChatbotStatusDisplay` (lines 208-239): while stopped,
the stop button is hidden; the start button is additionally hidden exactly
when `stopped_by === 'admin'`, in which case the label reads
"Остановлен админом"; while running, the start button is hidden and the stop
button shown. -/
def updateChatbotStatusDisplay (status : StatusPayload) : StatusDisplay :=
  if status.stopped then
    if status.stopped_by = some "admin" then
      { statusText := "Остановлен админом", stopBtnVisible := false,
        startBtnVisible := false, detailsVisible := true }
    else
      { statusText := "Остановлен", stopBtnVisible := false,
        startBtnVisible := true, detailsVisible := true }
  else
    { statusText := "Работает", stopBtnVisible := true,
      startBtnVisible := false, detailsVisible := false }

/-- The per-account stop flag: whether the chatbots are stopped and by whom
(`some "admin"` or `some "user"`). -/
structure AccountStopState where
  stopped : Bool
  stoppedBy : Option String
deriving DecidableEq

/-- Result of the self-serve start operation: the `success` and
`admin_stopped` flags the frontend reads, and the stop state afterwards. -/
structure StartResult where
  success : Bool
  admin_stopped : Bool
  after : AccountStopState
deriving DecidableEq

/-- Modelled from the spec: the backend /api/chatbot/start operation is absent
from src/; per §8, while the stop flag was set by the administrator the
self-serve start is rejected with `admin_stopped: true` and the flag is left
in place until the admin clears it; otherwise the stop flag is cleared. -/
def startChatbotOp (st : AccountStopState) : StartResult :=
  if st.stopped ∧ st.stoppedBy = some "admin" then
    { success := false, admin_stopped := true, after := st }
  else
    { success := true, admin_stopped := false,
      after := { stopped := false, stoppedBy := none } }

/-- Modelled from the spec: the administrator clearing the stop flag for an
account (the admin-side counterpart of §8's scenario). -/
def adminClearStop (_st : AccountStopState) : AccountStopState :=
  { stopped := false, stoppedBy := none }

/-- settings.js, `startChatbot` (lines 272-297): the message shown for the
/api/chatbot/start response — on failure the handler checks `admin_stopped`
first and shows the admin-stop notice. -/
def startChatbotMessage (success adminStopped : Bool) (error : Option String) :
    String :=
  if success then "Чатботы успешно запущены"
  else if adminStopped then "Все ваши боты приостановлены админом"
  else jsOr error "Ошибка при запуске чатботов"

/-! ## Settings save validation (settings.js form submit) -/

/-- The leading run of decimal digits of a character list, as a number;
`none` when the list does not start with a digit. -/
def parseIntDigits (l : List Char) : Option Nat :=
  let ds := l.takeWhile Char.isDigit
  if ds.isEmpty then none
  else some (ds.foldl (fun n c => 10 * n + (c.toNat - '0'.toNat)) 0)

/-- JS `parseInt` with no radix argument, on the decimal strings coming out of
the settings form: skips leading whitespace, reads an optional sign and then a
run of decimal digits; NaN (modelled as `none`) when no digit is found. A
missing form field (`null`) is also modelled as `none`: `parseInt(null)`
parses the string "null" and is NaN. -/
def parseIntJs (field : Option String) : Option Int :=
  match field with
  | none => none
  | some str =>
      let l := str.data.dropWhile Char.isWhitespace
      match l with
      | '-' :: rest => (parseIntDigits rest).map (fun n => -(n : Int))
      | '+' :: rest => (parseIntDigits rest).map (fun n => (n : Int))
      | _ => (parseIntDigits l).map (fun n => (n : Int))

/-- Outcome of the settings form submit: the message shown (if any) and
whether the POST /api/save_settings/:kb request was issued. -/
structure SaveSettingsOutcome where
  errorMsg : Option String
  saveRequestSent : Bool
deriving DecidableEq

/-- JS falsiness of the `currentKbId` variable: `null` (modelled as `none`) or
the empty string. -/
def jsFalsyStr (x : Option String) : Bool :=
  match x with
  | none => true
  | some s => s == ""

/-- settings.js, settings form submit handler (lines 39-81): parses the tone
field with `parseInt`, rejects when the result is NaN, then rejects when no KB
is selected, and only then issues the save request. -/
def settingsFormSubmit (toneField : Option String) (currentKbId : Option String) :
    SaveSettingsOutcome :=
  match parseIntJs toneField with
  | none =>
      { errorMsg := some "Пожалуйста, выберите тон общения", saveRequestSent := false }
  | some _ =>
      if jsFalsyStr currentKbId then
        { errorMsg := some "Пожалуйста, выберите базу знаний.", saveRequestSent := false }
      else
        { errorMsg := none, saveRequestSent := true }

/-! ## Displayed relevance scores (main.js, viewer.js) -/

/-- main.js, `addResultCard` (lines 38-61): the relevance value displayed on
the query page, `(1 - result.score).toFixed(3)` — here the rational value
before decimal formatting. -/
def queryPageRelevance (score : ℚ) : ℚ := 1 - score

/-- viewer.js, `renderDocument` (lines 941-979): the relevance percentage
shown on the semantic-search page, `(doc.similarity_score * 100).toFixed(1)` —
here the rational value before decimal formatting. -/
def semanticPageRelevance (similarity_score : ℚ) : ℚ := similarity_score * 100

/-- `Number.prototype.toFixed(d)`: rounding to d decimal digits. -/
def toFixedQ (d : ℕ) (x : ℚ) : ℚ := (round (x * 10 ^ d) : ℚ) / 10 ^ d

/-- Modelled from the spec: the retrieval backend is absent from src/; per
§4.3 it maps raw distances to a normalized relevance r (with
`score = 1 - distance` for distances in [0,1]), so the query endpoint's
`score` field is the distance `1 - r`. -/
def scoreOfRelevance (r : ℚ) : ℚ := 1 - r

/-- Modelled from the spec: the semantic-search endpoint reports the
normalized relevance itself in the `similarity_score` field. -/
def similarityOfRelevance (r : ℚ) : ℚ := r

/-! ## Search-term highlighting (viewer.js, highlightText) -/

/-- A single item of the regex pattern the viewer builds from the query: a
literal character or the `.` wildcard (the fragment of JS regex syntax
modelled here). -/
inductive PatItem where
  | lit (c : Char)
  | dot
deriving DecidableEq

/-- The pattern denoted by interpolating the query into
`new RegExp('(' + query + ')', 'gi')`, over the literal-plus-wildcard
fragment: `.` becomes the any-character wildcard, every other character
matches itself. -/
def patternOfQuery (query : String) : List PatItem :=
  query.data.map (fun c => if c = '.' then PatItem.dot else PatItem.lit c)

/-- Single-character match under the regex `i` flag: the wildcard matches
anything but a newline, a literal matches up to case. -/
def charMatches (p : PatItem) (c : Char) : Bool :=
  match p with
  | .dot => c != '\n'
  | .lit a => a.toLower == c.toLower

/-- Matching the pattern against a prefix of the text: the matched characters
(in original case) and the rest, or `none`. -/
def matchHere : List PatItem → List Char → Option (List Char × List Char)
  | [], rest => some ([], rest)
  | _ :: _, [] => none
  | p :: ps, c :: cs =>
      if charMatches p c then
        (matchHere ps cs).map (fun m => (c :: m.1, m.2))
      else none

/-- The opening tag of the highlight span each match is wrapped in. -/
def spanOpen : String := "<span class=\"highlight\">"

/-- The closing tag of the highlight span. -/
def spanClose : String := "</span>"

/-- The global-replace loop of `text.replace(regex, ...)` with a `g` regex:
scan left to right, wrap each leftmost non-overlapping match in the highlight
span (the `$1` capture keeps the original case) and skip it, copy every other
character. The fuel argument bounds the recursion; a nonempty pattern consumes
at least one character per step, so fuel equal to the text length never runs
out. -/
def highlightScanF : ℕ → List PatItem → List Char → List Char
  | _, _, [] => []
  | 0, _, c :: cs => c :: cs
  | fuel + 1, pat, c :: cs =>
      match matchHere pat (c :: cs) with
      | some (m, rest) =>
          spanOpen.data ++ m ++ spanClose.data ++ highlightScanF fuel pat rest
      | none => c :: highlightScanF fuel pat cs

/-- viewer.js, `highlightText` (lines 66-70): a falsy (empty) query returns
the text unchanged; otherwise every match of
`new RegExp('(' + query + ')', 'gi')` in the text is replaced by
`<span class="highlight">$1</span>`. Embedded over the literal-plus-`.`
regex fragment. -/
def highlightText (text query : String) : String :=
  if query = "" then text
  else String.mk (highlightScanF text.data.length (patternOfQuery query) text.data)

/-- Case-insensitive literal prefix match of the query characters against the
text: the matched characters and the rest, or `none`. -/
def literalMatchHere : List Char → List Char → Option (List Char × List Char)
  | [], rest => some ([], rest)
  | _ :: _, [] => none
  | q :: qs, c :: cs =>
      if q.toLower == c.toLower then
        (literalMatchHere qs cs).map (fun m => (c :: m.1, m.2))
      else none

/-- The scan for the claim's reading of highlighting: wrap every leftmost
non-overlapping case-insensitive occurrence of the query taken literally,
copy every other character. -/
def literalScanF : ℕ → List Char → List Char → List Char
  | _, _, [] => []
  | 0, _, c :: cs => c :: cs
  | fuel + 1, q, c :: cs =>
      match literalMatchHere q (c :: cs) with
      | some (m, rest) =>
          spanOpen.data ++ m ++ spanClose.data ++ literalScanF fuel q rest
      | none => c :: literalScanF fuel q cs

/-- The claim's reading of `highlightText`, stated from the spec sentence:
the empty query is the identity, and a non-empty query has every
case-insensitive occurrence of itself — taken literally, not as a regex —
wrapped in the highlight span. -/
def highlightLiteral (text query : String) : String :=
  if query = "" then text
  else String.mk (literalScanF text.data.length query.data text.data)

/-! ## Theorems -/

/-- C1: in both the add-Q&A and the edit-Q&A submit handlers, an input whose
trimmed question is empty or longer than 250 characters, or whose trimmed
answer is empty or longer than 2500 characters, is rejected with a specific
validation message and no mutation request; the request is issued exactly when
all four checks pass, and the two handlers validate identically. -/
theorem qa_submit_validation_correct (q a : String) :
    addQaSubmit q a = handleEditValidate q a
    ∧ ((addQaSubmit q a).requestSent = true ↔
        (jsTrim q) ≠ "" ∧ (jsTrim q).length ≤ 250 ∧ (jsTrim a) ≠ "" ∧ (jsTrim a).length ≤ 2500)
    ∧ ((addQaSubmit q a).requestSent = false → (addQaSubmit q a).errorMsg.isSome)
    ∧ ((jsTrim q) = "" →
        (addQaSubmit q a).errorMsg = some "Пожалуйста, введите вопрос.")
    ∧ ((jsTrim q) ≠ "" → (jsTrim q).length > 250 →
        (addQaSubmit q a).errorMsg =
          some "Вопрос слишком длинный. Максимальная длина вопроса - 250 символов.")
    ∧ ((jsTrim q) ≠ "" → (jsTrim q).length ≤ 250 → (jsTrim a) = "" →
        (addQaSubmit q a).errorMsg = some "Пожалуйста, введите ответ.")
    ∧ ((jsTrim q) ≠ "" → (jsTrim q).length ≤ 250 → (jsTrim a) ≠ "" → (jsTrim a).length > 2500 →
        (addQaSubmit q a).errorMsg =
          some "Ответ слишком длинный. Максимальная длина ответа - 2500 символов.") := by
  simp only [addQaSubmit, handleEditValidate]
  split_ifs <;> simp_all

/-- Witness for C1 at concrete inputs: an empty question is rejected with the
specific message, and a well-formed pair passes validation. -/
theorem qa_submit_validation_correct_witness :
    (addQaSubmit "  " "answer").errorMsg = some "Пожалуйста, введите вопрос."
    ∧ (addQaSubmit "q?" "a!").requestSent = true := by
  refine ⟨(qa_submit_validation_correct "  " "answer").2.2.2.1 (by decide), ?_⟩
  exact ((qa_submit_validation_correct "q?" "a!").2.1).mpr (by decide)

/-- C3: `loadSettingsForKb` replaces every unset field by its default — tone 2,
humor 2, brevity 2, empty additional prompt — and keeps every set field. -/
theorem load_settings_defaults_correct (s : SettingsPayload) :
    (s.tone = none → (loadSettingsForKb s).tone = 2)
    ∧ (∀ t, s.tone = some t → (loadSettingsForKb s).tone = t)
    ∧ (s.humor = none → (loadSettingsForKb s).humor = 2)
    ∧ (∀ h, s.humor = some h → (loadSettingsForKb s).humor = h)
    ∧ (s.brevity = none → (loadSettingsForKb s).brevity = 2)
    ∧ (∀ b, s.brevity = some b → (loadSettingsForKb s).brevity = b)
    ∧ (s.additional_prompt = none → (loadSettingsForKb s).additional_prompt = "")
    ∧ (∀ p, s.additional_prompt = some p → (loadSettingsForKb s).additional_prompt = p) := by
  unfold loadSettingsForKb
  refine ⟨?_, ?_, ?_, ?_, ?_, ?_, ?_, ?_⟩ <;> intro h <;> simp_all

/-- Witness for C3: a fully unset settings payload loads as all defaults. -/
theorem load_settings_defaults_correct_witness :
    loadSettingsForKb ⟨none, none, none, none⟩ = ⟨2, 2, 2, ""⟩ := by
  have h := load_settings_defaults_correct ⟨none, none, none, none⟩
  have h1 := h.1 rfl
  have h2 := h.2.2.1 rfl
  have h3 := h.2.2.2.2.1 rfl
  have h4 := h.2.2.2.2.2.2.1 rfl
  cases hf : loadSettingsForKb ⟨none, none, none, none⟩
  simp_all

/-- C9: when the chat input is empty or whitespace-only after trimming,
`sendMessage` is a no-op: no request is sent, no message is appended, and the
input and button state are unchanged. -/
theorem send_message_blank_noop (st : ChatPageState)
    (h : jsTrim st.inputValue = "") : sendMessage st = st := by
  unfold sendMessage
  simp [h]

/-- Witness for C9: a whitespace-only input leaves a concrete page state
untouched. -/
theorem send_message_blank_noop_witness :
    sendMessage ⟨"  ", false, false, [], []⟩ = ⟨"  ", false, false, [], []⟩ :=
  send_message_blank_noop ⟨"  ", false, false, [], []⟩ (by decide)

/-- Helper: no escaped character expansion contains a raw `<` or `>`. -/
theorem escapeChar_no_markup (c : Char) :
    '<' ∉ escapeChar c ∧ '>' ∉ escapeChar c := by
  unfold escapeChar
  split_ifs with h1 h2 h3 <;> simp_all
  exact ⟨fun hc => h2 hc.symm, fun hc => h3 hc.symm⟩

/-- C8: every chat message, from the user or from the bot, is rendered through
`escapeHtml`, and the escaped text never contains a raw `<` or `>`, so no HTML
markup of the input survives into the page. -/
theorem chat_messages_escaped (text sender : String) :
    addMessageRenderedText text sender = escapeHtml text
    ∧ '<' ∉ (escapeHtml text).data
    ∧ '>' ∉ (escapeHtml text).data := by
  refine ⟨by simp [addMessageRenderedText], ?_, ?_⟩ <;>
  · simp only [escapeHtml, String.mk, List.mem_flatten]
    rintro ⟨l, hl, hmem⟩
    simp only [List.mem_map] at hl
    obtain ⟨c, -, rfl⟩ := hl
    first
      | exact (escapeChar_no_markup c).1 hmem
      | exact (escapeChar_no_markup c).2 hmem

/-- Witness for C8 at a concrete input containing markup: the rendered user
message is the escaped text, which carries no raw `<`. -/
theorem chat_messages_escaped_witness :
    addMessageRenderedText "<b>hi</b>" "user" = escapeHtml "<b>hi</b>"
    ∧ '<' ∉ (escapeHtml "<b>hi</b>").data :=
  ⟨(chat_messages_escaped "<b>hi</b>" "user").1,
   (chat_messages_escaped "<b>hi</b>" "user").2.1⟩

/-- C4: while the service is stopped, the chat operation yields the HTTP 503
outcome carrying the stopped flag, the `admin_stopped` flag and the configured
stop message, and the frontend handler branches on that flag and displays the
stop message rather than an answer. -/
theorem chat_stopped_outcome_correct (b : Bool) (msg : String) (hmsg : msg ≠ "") :
    (chatServiceStoppedResponse b msg).status = 503
    ∧ (chatServiceStoppedResponse b msg).chatbot_stopped = true
    ∧ (chatServiceStoppedResponse b msg).admin_stopped = b
    ∧ (chatServiceStoppedResponse b msg).success = false
    ∧ (chatServiceStoppedResponse b msg).response = none
    ∧ botMessageFor (chatServiceStoppedResponse b msg) = msg := by
  refine ⟨rfl, rfl, rfl, rfl, rfl, ?_⟩
  simp [chatServiceStoppedResponse, botMessageFor, jsOr, hmsg]

/-- Witness for C4 at a concrete stop message set by the admin. -/
theorem chat_stopped_outcome_correct_witness :
    botMessageFor (chatServiceStoppedResponse true "Чатбот временно остановлен") =
      "Чатбот временно остановлен" :=
  (chat_stopped_outcome_correct true "Чатбот временно остановлен"
    (by decide)).2.2.2.2.2

/-- C2: deleting the default KB is rejected on the settings page (specific
message, no DELETE request) and by the delete operation itself (state
unchanged); deleting the currently-selected non-default KB succeeds and
switches the current KB to default, reported via `switched_to_default`, while
deleting a non-selected KB leaves the current KB alone. -/
theorem delete_kb_default_guard_correct :
    (∀ confirmed, deleteCurrentKb (some "default") confirmed =
      { errorMsg := some "Базу знаний по умолчанию нельзя удалить",
        deleteRequestSent := false })
    ∧ (∀ st : KbState, (deleteKb st "default").success = false
        ∧ (deleteKb st "default").after = st)
    ∧ (∀ (st : KbState) (kbId : String), kbId ≠ "default" → st.currentKb = kbId →
        (deleteKb st kbId).success = true
        ∧ (deleteKb st kbId).switched_to_default = true
        ∧ (deleteKb st kbId).after.currentKb = "default")
    ∧ (∀ (st : KbState) (kbId : String), kbId ≠ "default" → st.currentKb ≠ kbId →
        (deleteKb st kbId).switched_to_default = false
        ∧ (deleteKb st kbId).after.currentKb = st.currentKb) := by
  refine ⟨fun confirmed => rfl, fun st => by simp [deleteKb], ?_, ?_⟩ <;>
    { intro st kbId h1 h2
      simp [deleteKb, h1, h2] }

/-- Witness for C2: deleting the selected KB `kb1` from a concrete two-KB
state switches the current KB to default with the flag set. -/
theorem delete_kb_default_guard_correct_witness :
    (deleteKb ⟨["default", "kb1"], "kb1"⟩ "kb1").success = true
    ∧ (deleteKb ⟨["default", "kb1"], "kb1"⟩ "kb1").switched_to_default = true
    ∧ (deleteKb ⟨["default", "kb1"], "kb1"⟩ "kb1").after.currentKb = "default" :=
  delete_kb_default_guard_correct.2.2.1 ⟨["default", "kb1"], "kb1"⟩ "kb1"
    (by decide) (by decide)

/-- C5: an admin-set stop flag makes the self-serve start operation fail with
`admin_stopped: true` and leaves the flag in place, while the settings page
withholds the start button; after the admin clears the flag the start
operation succeeds again; for a self-stop the start button stays available,
the start operation succeeds, and the frontend shows the admin notice exactly
on an admin-stopped failure. -/
theorem admin_stop_withholds_start (st : AccountStopState) (status : StatusPayload) :
    (st.stopped = true → st.stoppedBy = some "admin" →
      (startChatbotOp st).success = false
      ∧ (startChatbotOp st).admin_stopped = true
      ∧ (startChatbotOp st).after = st)
    ∧ (st.stoppedBy ≠ some "admin" → (startChatbotOp st).success = true)
    ∧ (startChatbotOp (adminClearStop st)).success = true
    ∧ (status.stopped = true → status.stopped_by = some "admin" →
      (updateChatbotStatusDisplay status).startBtnVisible = false)
    ∧ (status.stopped = true → status.stopped_by ≠ some "admin" →
      (updateChatbotStatusDisplay status).startBtnVisible = true)
    ∧ startChatbotMessage false true none = "Все ваши боты приостановлены админом" := by
  refine ⟨fun h1 h2 => ?_, fun h => ?_, ?_, fun h1 h2 => ?_, fun h1 h2 => ?_, rfl⟩
  · simp [startChatbotOp, h1, h2]
  · simp [startChatbotOp, h]
  · simp [startChatbotOp, adminClearStop]
  · simp [updateChatbotStatusDisplay, h1, h2]
  · simp [updateChatbotStatusDisplay, h1, h2]

/-- Witness for C5: a concrete admin-stopped account cannot self-start and its
start button is hidden. -/
theorem admin_stop_withholds_start_witness :
    (startChatbotOp ⟨true, some "admin"⟩).success = false
    ∧ (startChatbotOp ⟨true, some "admin"⟩).admin_stopped = true
    ∧ (updateChatbotStatusDisplay ⟨true, some "admin", none, none⟩).startBtnVisible
        = false := by
  have h := admin_stop_withholds_start ⟨true, some "admin"⟩
    ⟨true, some "admin", none, none⟩
  have h1 := h.1 rfl rfl
  exact ⟨h1.1, h1.2.1, h.2.2.2.1 rfl rfl⟩

/-- C7: the settings save is rejected with the specific tone message and no
request when the tone field is missing or does not parse to a number; the save
request is issued exactly when the tone parses and a KB is selected. -/
theorem settings_save_tone_validation (tone kb : Option String) :
    (parseIntJs tone = none → settingsFormSubmit tone kb =
      { errorMsg := some "Пожалуйста, выберите тон общения", saveRequestSent := false })
    ∧ (tone = none → settingsFormSubmit tone kb =
      { errorMsg := some "Пожалуйста, выберите тон общения", saveRequestSent := false })
    ∧ ((settingsFormSubmit tone kb).saveRequestSent = true ↔
        (parseIntJs tone).isSome ∧ jsFalsyStr kb = false) := by
  refine ⟨fun h => by simp [settingsFormSubmit, h], fun h => ?_, ?_⟩
  · subst h
    simp [settingsFormSubmit, parseIntJs]
  · unfold settingsFormSubmit
    cases h : parseIntJs tone with
    | none => simp
    | some v =>
        by_cases hk : jsFalsyStr kb = true <;> simp_all

/-- Witness for C7: a missing tone field is rejected with the tone message,
and a parsed tone with a selected KB issues the save. -/
theorem settings_save_tone_validation_witness :
    settingsFormSubmit none (some "default") =
      { errorMsg := some "Пожалуйста, выберите тон общения", saveRequestSent := false }
    ∧ (settingsFormSubmit (some "3") (some "default")).saveRequestSent = true := by
  refine ⟨(settings_save_tone_validation none (some "default")).2.1 rfl, ?_⟩
  exact (settings_save_tone_validation (some "3") (some "default")).2.2.mpr
    (by constructor <;> decide)

/-- Helper: `toFixed`-style rounding is monotone. -/
theorem toFixedQ_mono (d : ℕ) {x y : ℚ} (h : x ≤ y) : toFixedQ d x ≤ toFixedQ d y := by
  unfold toFixedQ
  have hp : (0 : ℚ) < 10 ^ d := by positivity
  have hr : round (x * 10 ^ d) ≤ round (y * 10 ^ d) := by
    rw [round_eq, round_eq]
    exact Int.floor_le_floor (by nlinarith)
  have hr' : ((round (x * 10 ^ d) : ℤ) : ℚ) ≤ ((round (y * 10 ^ d) : ℤ) : ℚ) := by
    exact_mod_cast hr
  exact (div_le_div_iff_of_pos_right hp).mpr hr'

/-- C6: with the backend reporting `score = 1 - r` to the query page and
`similarity_score = r` to the semantic-search page for the same underlying
relevance r, the two displayed values — `1 - score` to three decimals and
`similarity_score * 100` to one decimal — are both monotone in r, and before
formatting they agree up to the fixed factor 100, so the frontend shows one
consistent monotone transform of the relevance. -/
theorem relevance_displays_consistent (r₁ r₂ : ℚ) (h : r₁ ≤ r₂) :
    queryPageRelevance (scoreOfRelevance r₁) ≤ queryPageRelevance (scoreOfRelevance r₂)
    ∧ semanticPageRelevance (similarityOfRelevance r₁)
        ≤ semanticPageRelevance (similarityOfRelevance r₂)
    ∧ toFixedQ 3 (queryPageRelevance (scoreOfRelevance r₁))
        ≤ toFixedQ 3 (queryPageRelevance (scoreOfRelevance r₂))
    ∧ toFixedQ 1 (semanticPageRelevance (similarityOfRelevance r₁))
        ≤ toFixedQ 1 (semanticPageRelevance (similarityOfRelevance r₂))
    ∧ semanticPageRelevance (similarityOfRelevance r₁)
        = 100 * queryPageRelevance (scoreOfRelevance r₁) := by
  have h1 : queryPageRelevance (scoreOfRelevance r₁) ≤ queryPageRelevance (scoreOfRelevance r₂) := by
    simp [queryPageRelevance, scoreOfRelevance]; linarith
  have h2 : semanticPageRelevance (similarityOfRelevance r₁)
      ≤ semanticPageRelevance (similarityOfRelevance r₂) := by
    simp [semanticPageRelevance, similarityOfRelevance]; linarith
  refine ⟨h1, h2, toFixedQ_mono 3 h1, toFixedQ_mono 1 h2, ?_⟩
  simp [semanticPageRelevance, similarityOfRelevance, queryPageRelevance, scoreOfRelevance]
  ring

/-- Witness for C6 at the concrete relevances 1/4 and 1/2. -/
theorem relevance_displays_consistent_witness :
    toFixedQ 3 (queryPageRelevance (scoreOfRelevance (1 / 4)))
      ≤ toFixedQ 3 (queryPageRelevance (scoreOfRelevance (1 / 2))) :=
  (relevance_displays_consistent (1 / 4) (1 / 2) (by norm_num)).2.2.1

/-- Helper: the literal prefix matcher is the pattern matcher on an
all-literal pattern. -/
theorem literalMatchHere_eq (qs : List Char) (l : List Char) :
    literalMatchHere qs l = matchHere (qs.map PatItem.lit) l := by
  induction qs generalizing l with
  | nil => cases l <;> rfl
  | cons q qs ih =>
      cases l with
      | nil => rfl
      | cons c cs => simp [literalMatchHere, matchHere, charMatches, ih]

/-- Helper: on a metacharacter-free query, the regex scan and the literal
scan produce the same output. -/
theorem literalScanF_eq (fuel : ℕ) (qs : List Char) (l : List Char) :
    literalScanF fuel qs l = highlightScanF fuel (qs.map PatItem.lit) l := by
  induction fuel generalizing l with
  | zero => cases l <;> rfl
  | succ n ih =>
      cases l with
      | nil => rfl
      | cons c cs =>
          simp only [literalScanF, highlightScanF, literalMatchHere_eq]
          cases hm : matchHere (qs.map PatItem.lit) (c :: cs) with
          | none => simp [ih]
          | some pr => cases pr with
            | mk m rest => simp [ih]

/-- C10 counterexample: with the query ".", which does not occur literally in
"ab", `highlightText` nevertheless wraps every character, because the query is
interpolated into the regex and `.` is a wildcard — so `highlightText` does
not wrap (exactly) the occurrences of the query. -/
theorem highlight_dot_query_counterexample :
    highlightText "ab" "." ≠ highlightLiteral "ab" "."
    ∧ highlightLiteral "ab" "." = "ab"
    ∧ highlightText "ab" "." =
        "<span class=\"highlight\">a</span><span class=\"highlight\">b</span>" := by
  decide

/-- C10 (amended): `highlightText` with an empty query is the identity; for a
non-empty query free of regex metacharacters it wraps every leftmost
non-overlapping case-insensitive occurrence of the query in a highlight span
(the literal reading); a query containing a metacharacter such as `.` is
interpreted as a regex pattern instead. -/
theorem highlight_text_amended (text query : String) :
    (query = "" → highlightText text query = text)
    ∧ ((∀ c ∈ query.data, c ≠ '.') →
        highlightText text query = highlightLiteral text query) := by
  constructor
  · intro h
    simp [highlightText, h]
  · intro h
    unfold highlightText highlightLiteral
    have hpat : patternOfQuery query = query.data.map PatItem.lit := by
      unfold patternOfQuery
      exact List.map_congr_left fun c hc => by simp [h c hc]
    rw [hpat, literalScanF_eq]

/-- Witness for C10 (amended) at concrete inputs: the empty query leaves
"abc" unchanged, and the metacharacter-free query "b" is wrapped literally. -/
theorem highlight_text_amended_witness :
    highlightText "abc" "" = "abc"
    ∧ highlightText "abc" "b" = highlightLiteral "abc" "b" :=
  ⟨(highlight_text_amended "abc" "").1 rfl,
   (highlight_text_amended "abc" "b").2 (by decide)⟩

end NeuroBot
